import Mathlib

/-!
Verification development for the alert-monitoring core of a vehicle-monitoring
desktop application (`alertMonitoring.ts`).

The module keeps a process-wide map from alert key to last-emit timestamp
(insertion-ordered, as a JavaScript `Map`), evaluates telemetry snapshots
against thresholds, and publishes create/dismiss notifications on an external
channel.  We embed it shallowly:

* the dedup store is an insertion-ordered association list (`AlertStore`);
* a `MonitorState` carries the store together with the ordered log of
  notification events published so far;
* telemetry numbers (signal strength, battery, coordinates) are exact
  rationals; the haversine distance is computed over the reals with
  `Real.sin`, `Real.cos`, `Real.sqrt` and an explicit model of
  JavaScript `Math.atan2`;
* `Date.now()` becomes an explicit `now : ℕ` argument (milliseconds),
  threaded through one evaluation pass.

String formatting of numbers inside notification descriptions
(`toFixed(...)` in the source) is floating-point formatting; descriptions
keep their fixed text and elide only that numeral where noted.
-/

/-- Insertion-ordered association list lookup: first entry with the key. -/
def lookupEntry : List (String × ℕ) → String → Option ℕ
  | [], _ => none
  | (k, t) :: rest, key => if k = key then some t else lookupEntry rest key

/-- `Map.set` semantics: replace the value in place if the key is present
(keeping its position), otherwise append at the end. -/
def setEntry : List (String × ℕ) → String → ℕ → List (String × ℕ)
  | [], key, t => [(key, t)]
  | (k, v) :: rest, key, t =>
      if k = key then (k, t) :: rest else (k, v) :: setEntry rest key t

/-- `Map.delete` semantics: remove the entry with the key. -/
def eraseEntry : List (String × ℕ) → String → List (String × ℕ)
  | [], _ => []
  | (k, v) :: rest, key => if k = key then rest else (k, v) :: eraseEntry rest key

/-- The alert deduplication store: alert key ↦ last-emit timestamp (ms),
in insertion order (model of the module-level `activeAlerts` JS `Map`). -/
structure AlertStore where
  entries : List (String × ℕ)
deriving DecidableEq, Repr

def AlertStore.get (s : AlertStore) (key : String) : Option ℕ :=
  lookupEntry s.entries key

def AlertStore.set (s : AlertStore) (key : String) (t : ℕ) : AlertStore :=
  ⟨setEntry s.entries key t⟩

def AlertStore.erase (s : AlertStore) (key : String) : AlertStore :=
  ⟨eraseEntry s.entries key⟩

def AlertStore.has (s : AlertStore) (key : String) : Bool :=
  (s.get key).isSome

def AlertStore.keys (s : AlertStore) : List String :=
  s.entries.map Prod.fst

/-- Severity of a create/update notification (`"error" | "warning"`). -/
inductive Severity
  | error
  | warning
deriving DecidableEq, Repr

/-- One notification published on the external channel: a create/update
toast (`emit "create-toast"`) or a dismiss (`emit "dismiss-toast"`). -/
inductive Event
  | createToast (id : String) (severity : Severity) (title description : String)
  | dismissToast (id : String)
deriving DecidableEq, Repr

/-- State of the monitoring module: the dedup store plus the ordered log of
events published so far. -/
structure MonitorState where
  activeAlerts : AlertStore
  events : List Event
deriving DecidableEq, Repr

/-- Configurable thresholds (`ALERT_THRESHOLDS` object in the source). -/
structure AlertThresholdsConfig where
  SIGNAL_STRENGTH : ℚ
  LOW_BATTERY : ℚ
  PROXIMITY : ℚ
deriving DecidableEq, Repr

def ALERT_THRESHOLDS : AlertThresholdsConfig :=
  { SIGNAL_STRENGTH := -70, LOW_BATTERY := 20, PROXIMITY := 100 }

/-- Minimum time between alert updates, in milliseconds. -/
def ALERT_UPDATE_DEBOUNCE : ℕ := 3000

/-- Generate the unique alert key for deduplication: `vehicle ++ "_" ++ type`. -/
def getAlertKey (vehicle : String) (type : String) : String :=
  vehicle ++ "_" ++ type

/-- Emit or update an alert toast.  Publishes a create-toast event and
records the timestamp when `!lastUpdate || (now - lastUpdate) >= 3000`
holds; otherwise silently skips.  JavaScript `!lastUpdate` is true both
when the key is absent and when the stored timestamp is the falsy number
0, so a stored timestamp of 0 always re-emits. -/
def emitAlert (now : ℕ) (vehicle : String) (type : String) (severity : Severity)
    (title : String) (description : String) (st : MonitorState) : MonitorState :=
  let alertKey := getAlertKey vehicle type
  let lastUpdate := st.activeAlerts.get alertKey
  let shouldUpdate : Bool :=
    match lastUpdate with
    | none => true
    | some last => decide (last = 0) || decide (ALERT_UPDATE_DEBOUNCE ≤ now - last)
  if shouldUpdate then
    { activeAlerts := st.activeAlerts.set alertKey now,
      events := st.events ++ [Event.createToast alertKey severity title description] }
  else
    st

/-- Clear an alert and dismiss its toast; a no-op when the key is absent. -/
def clearAlert (vehicle : String) (type : String) (st : MonitorState) : MonitorState :=
  let alertKey := getAlertKey vehicle type
  if st.activeAlerts.has alertKey then
    { activeAlerts := st.activeAlerts.erase alertKey,
      events := st.events ++ [Event.dismissToast alertKey] }
  else
    st

/-- Check signal strength for a vehicle. -/
def checkSignalStrength (now : ℕ) (vehicle : String) (signalStrength : ℚ)
    (st : MonitorState) : MonitorState :=
  if signalStrength < ALERT_THRESHOLDS.SIGNAL_STRENGTH then
    emitAlert now vehicle "signal_strength" Severity.warning
      "Warning: Signal Integrity"
      ("Weak signal integrity/connection lost to " ++ vehicle ++ "!") st
  else
    clearAlert vehicle "signal_strength" st

/-- Check connection status for a vehicle; also raises the `signal_strength`
alert on the `"Bad Connection"` status. -/
def checkConnectionStatus (now : ℕ) (vehicle : String) (vehicleStatus : String)
    (st : MonitorState) : MonitorState :=
  let st1 :=
    if vehicleStatus = "Disconnected" then
      emitAlert now vehicle "heartbeat_timeout" Severity.error
        "Error: Connection Failure"
        ("Unable to connect to " ++ vehicle) st
    else if vehicleStatus = "Connected" then
      clearAlert vehicle "heartbeat_timeout" st
    else
      st
  if vehicleStatus = "Bad Connection" then
    emitAlert now vehicle "signal_strength" Severity.warning
      "Warning: Signal Integrity"
      ("Weak signal integrity/connection lost to " ++ vehicle ++ "!") st1
  else
    st1

/-- Check battery level for a vehicle.  The source interpolates
`batteryLife.toFixed(1)` into the description; the rational is rendered
with `toString` here. -/
def checkBatteryLevel (now : ℕ) (vehicle : String) (batteryLife : ℚ)
    (st : MonitorState) : MonitorState :=
  if batteryLife < ALERT_THRESHOLDS.LOW_BATTERY then
    emitAlert now vehicle "abnormal_status" Severity.error
      "Error: Abnormal Status"
      ("Abnormal " ++ vehicle ++ " status (low battery: " ++ toString batteryLife ++ "%)!") st
  else
    clearAlert vehicle "abnormal_status" st

/-- Check geo-fence status for a vehicle. -/
def checkGeoFenceStatus (now : ℕ) (vehicle : String) (vehicleStatus : String)
    (st : MonitorState) : MonitorState :=
  if vehicleStatus = "Approaching restricted area" then
    emitAlert now vehicle "geo_fence" Severity.warning
      "Warning: Keep-Out Zone"
      (vehicle ++ " approaching keep-out zone!") st
  else
    clearAlert vehicle "geo_fence" st

/-- Model of JavaScript `Math.atan2 y x` on the reals (signed zeros and
NaN, which cannot arise in this development, are ignored). -/
noncomputable def atan2 (y x : ℝ) : ℝ :=
  if 0 < x then Real.arctan (y / x)
  else if x < 0 then
    (if 0 ≤ y then Real.arctan (y / x) + Real.pi else Real.arctan (y / x) - Real.pi)
  else
    (if 0 < y then Real.pi / 2 else if y < 0 then -(Real.pi / 2) else 0)

/-- Calculate distance between two coordinates using the haversine formula,
in feet (earth radius 3959 miles, × 5280 feet per mile). -/
noncomputable def calculateDistance (lat1 lon1 lat2 lon2 : ℝ) : ℝ :=
  let R : ℝ := 3959
  let dLat := (lat2 - lat1) * Real.pi / 180
  let dLon := (lon2 - lon1) * Real.pi / 180
  let a :=
    Real.sin (dLat / 2) * Real.sin (dLat / 2) +
      Real.cos (lat1 * Real.pi / 180) * Real.cos (lat2 * Real.pi / 180) *
        Real.sin (dLon / 2) * Real.sin (dLon / 2)
  let c := 2 * atan2 (Real.sqrt a) (Real.sqrt (1 - a))
  R * c * 5280

/-- A latitude/longitude pair, in degrees (exact rationals, as every
telemetry double is a rational). -/
structure Coordinate where
  latitude : ℚ
  longitude : ℚ
deriving DecidableEq, Repr

/-- One vehicle's telemetry record. -/
structure VehicleTelemetry where
  signal_strength : ℚ
  vehicle_status : String
  battery_life : ℚ
  current_position : Option Coordinate
deriving DecidableEq, Repr

/-- The telemetry snapshot: one optional record per tracked vehicle. -/
structure VehicleTelemetryData where
  ERU : Option VehicleTelemetry
  MEA : Option VehicleTelemetry
  MRA : Option VehicleTelemetry
deriving DecidableEq, Repr

open Classical in
/-- Check proximity between two vehicles.  The source interpolates
`distance.toFixed(0)` into the description; that numeral is elided. -/
noncomputable def checkVehicleProximity (now : ℕ) (vehicle1 : String)
    (lat1 lon1 : ℚ) (vehicle2 : String) (lat2 lon2 : ℚ)
    (st : MonitorState) : MonitorState :=
  let distance := calculateDistance (lat1 : ℝ) (lon1 : ℝ) (lat2 : ℝ) (lon2 : ℝ)
  if distance < (ALERT_THRESHOLDS.PROXIMITY : ℝ) then
    emitAlert now vehicle1 ("proximity_" ++ vehicle2) Severity.warning
      "Warning: Vehicle Proximity"
      (vehicle1 ++ " and " ++ vehicle2 ++ " are within the proximity threshold of each other!") st
  else
    clearAlert vehicle1 ("proximity_" ++ vehicle2) st

/-- Body of the per-vehicle `forEach` in `checkAlerts`: skip when the
record is absent, otherwise run the four single-vehicle checkers in order. -/
def checkVehicle (now : ℕ) (vehicle : String) (data : Option VehicleTelemetry)
    (st : MonitorState) : MonitorState :=
  match data with
  | none => st
  | some d =>
      let st1 := checkSignalStrength now vehicle d.signal_strength st
      let st2 := checkConnectionStatus now vehicle d.vehicle_status st1
      let st3 := checkBatteryLevel now vehicle d.battery_life st2
      checkGeoFenceStatus now vehicle d.vehicle_status st3

/-- One directed proximity check, guarded on both positions being known
(`telemetryState.V?.current_position` truthiness in the source). -/
noncomputable def checkPair (now : ℕ) (vehicle1 : String) (pos1 : Option Coordinate)
    (vehicle2 : String) (pos2 : Option Coordinate) (st : MonitorState) : MonitorState :=
  match pos1, pos2 with
  | some c1, some c2 =>
      checkVehicleProximity now vehicle1 c1.latitude c1.longitude
        vehicle2 c2.latitude c2.longitude st
  | _, _ => st

/-- Check all alert conditions for the current telemetry state: the main
entry point, one evaluation pass at time `now`. -/
noncomputable def checkAlerts (now : ℕ) (telemetryState : Option VehicleTelemetryData)
    (st : MonitorState) : MonitorState :=
  match telemetryState with
  | none => st
  | some ts =>
      let st1 := checkVehicle now "ERU" ts.ERU st
      let st2 := checkVehicle now "MEA" ts.MEA st1
      let st3 := checkVehicle now "MRA" ts.MRA st2
      let st4 := checkPair now "ERU" (ts.ERU.bind VehicleTelemetry.current_position)
        "MEA" (ts.MEA.bind VehicleTelemetry.current_position) st3
      let st5 := checkPair now "ERU" (ts.ERU.bind VehicleTelemetry.current_position)
        "MRA" (ts.MRA.bind VehicleTelemetry.current_position) st4
      checkPair now "MEA" (ts.MEA.bind VehicleTelemetry.current_position)
        "MRA" (ts.MRA.bind VehicleTelemetry.current_position) st5

/-- Get the current set of active alerts (`Array.from(activeAlerts.keys())`). -/
def getActiveAlerts (st : MonitorState) : List String :=
  st.activeAlerts.keys

/-- Clear all active alerts: one dismiss notification per stored entry, in
store order, then empty the store. -/
def clearAllAlerts (st : MonitorState) : MonitorState :=
  { activeAlerts := ⟨[]⟩,
    events := st.events ++ st.activeAlerts.keys.map Event.dismissToast }

/-- States of the monitoring module reachable through its exported mutating
API (`checkAlerts`, `clearAllAlerts`), starting from the empty store. -/
inductive Reachable : MonitorState → Prop
  | init : Reachable { activeAlerts := ⟨[]⟩, events := [] }
  | step (now : ℕ) (snap : Option VehicleTelemetryData) (st : MonitorState) :
      Reachable st → Reachable (checkAlerts now snap st)
  | clearAll (st : MonitorState) :
      Reachable st → Reachable (clearAllAlerts st)

/-- Every alert key any pass can create: four per-vehicle keys for each of
the three vehicles, and the three forward (directed) proximity keys. -/
def allowedKeys : List String :=
  ["ERU_signal_strength", "ERU_heartbeat_timeout", "ERU_abnormal_status", "ERU_geo_fence",
   "MEA_signal_strength", "MEA_heartbeat_timeout", "MEA_abnormal_status", "MEA_geo_fence",
   "MRA_signal_strength", "MRA_heartbeat_timeout", "MRA_abnormal_status", "MRA_geo_fence",
   "ERU_proximity_MEA", "ERU_proximity_MRA", "MEA_proximity_MRA"]

/-- Decidable form of "every stored key is in the whitelist". -/
def keysAllowed (st : MonitorState) : Bool :=
  st.activeAlerts.keys.all (fun k => decide (k ∈ allowedKeys))

/-- Select the record of the named vehicle from a snapshot
(`telemetryState[vehicle]` for the three tracked vehicle identifiers). -/
def vehicleRecord (ts : VehicleTelemetryData) (vehicle : String) : Option VehicleTelemetry :=
  if vehicle = "ERU" then ts.ERU
  else if vehicle = "MEA" then ts.MEA
  else if vehicle = "MRA" then ts.MRA
  else none

/-- True exactly on dismiss notifications. -/
def Event.isDismissToast : Event → Bool
  | Event.dismissToast _ => true
  | Event.createToast _ _ _ _ => false

/-! ### Association-list store lemmas -/

theorem lookupEntry_setEntry_self (l : List (String × ℕ)) (key : String) (t : ℕ) :
    lookupEntry (setEntry l key t) key = some t := by
  induction l with
  | nil => simp [setEntry, lookupEntry]
  | cons p rest ih =>
      obtain ⟨a, b⟩ := p
      by_cases h : a = key
      · simp [setEntry, h, lookupEntry]
      · simp [setEntry, h, lookupEntry, ih]

theorem lookupEntry_setEntry_ne (l : List (String × ℕ)) (key k : String) (t : ℕ)
    (h : k ≠ key) : lookupEntry (setEntry l key t) k = lookupEntry l k := by
  have h' : ¬ key = k := fun hh => h hh.symm
  induction l with
  | nil => simp [setEntry, lookupEntry, h']
  | cons p rest ih =>
      obtain ⟨a, b⟩ := p
      by_cases ha : a = key
      · simp [setEntry, ha, lookupEntry, h']
      · simp [setEntry, ha, lookupEntry, ih]

theorem lookupEntry_eraseEntry_ne (l : List (String × ℕ)) (key k : String)
    (h : k ≠ key) : lookupEntry (eraseEntry l key) k = lookupEntry l k := by
  have h' : ¬ key = k := fun hh => h hh.symm
  induction l with
  | nil => simp [eraseEntry]
  | cons p rest ih =>
      obtain ⟨a, b⟩ := p
      by_cases ha : a = key
      · simp [eraseEntry, ha, lookupEntry, h']
      · simp [eraseEntry, ha, lookupEntry, ih]

theorem mem_map_fst_setEntry (l : List (String × ℕ)) (key k : String) (t : ℕ)
    (h : k ∈ (setEntry l key t).map Prod.fst) :
    k ∈ l.map Prod.fst ∨ k = key := by
  induction l with
  | nil => simpa [setEntry] using h
  | cons p rest ih =>
      obtain ⟨a, b⟩ := p
      by_cases ha : a = key
      · simp only [setEntry, ha, if_pos, List.map_cons, List.mem_cons] at h ⊢
        exact Or.inl h
      · simp only [setEntry, if_neg ha, List.map_cons, List.mem_cons] at h ⊢
        rcases h with h | h
        · exact Or.inl (Or.inl h)
        · rcases ih h with h' | h'
          · exact Or.inl (Or.inr h')
          · exact Or.inr h'

theorem mem_map_fst_eraseEntry (l : List (String × ℕ)) (key k : String)
    (h : k ∈ (eraseEntry l key).map Prod.fst) : k ∈ l.map Prod.fst := by
  induction l with
  | nil => simp [eraseEntry] at h
  | cons p rest ih =>
      obtain ⟨a, b⟩ := p
      by_cases ha : a = key
      · rw [show eraseEntry ((a, b) :: rest) key = rest by simp [eraseEntry, ha]] at h
        simp only [List.map_cons, List.mem_cons]
        exact Or.inr h
      · simp only [eraseEntry, if_neg ha, List.map_cons, List.mem_cons] at h ⊢
        rcases h with h | h
        · exact Or.inl h
        · exact Or.inr (ih h)

/-! ### Dispatcher lemmas -/

theorem emitAlert_get_ne (now : ℕ) (v ty : String) (sev : Severity) (ti d : String)
    (st : MonitorState) (key : String) (h : key ≠ getAlertKey v ty) :
    (emitAlert now v ty sev ti d st).activeAlerts.get key = st.activeAlerts.get key := by
  simp only [emitAlert]
  split
  · simp [AlertStore.get, AlertStore.set, lookupEntry_setEntry_ne _ _ _ _ h]
  · rfl

theorem clearAlert_get_ne (v ty : String) (st : MonitorState) (key : String)
    (h : key ≠ getAlertKey v ty) :
    (clearAlert v ty st).activeAlerts.get key = st.activeAlerts.get key := by
  simp only [clearAlert]
  split
  · simp [AlertStore.get, AlertStore.erase, lookupEntry_eraseEntry_ne _ _ _ h]
  · rfl

theorem emitAlert_has_self (now : ℕ) (v ty : String) (sev : Severity) (ti d : String)
    (st : MonitorState) :
    (emitAlert now v ty sev ti d st).activeAlerts.has (getAlertKey v ty) = true := by
  simp only [emitAlert]
  rcases hl : st.activeAlerts.get (getAlertKey v ty) with _ | last
  · simp [AlertStore.has, AlertStore.get, AlertStore.set, lookupEntry_setEntry_self]
  · split
    · simp [AlertStore.has, AlertStore.get, AlertStore.set, lookupEntry_setEntry_self]
    · simp [AlertStore.has, hl]

theorem emitAlert_has_mono (now : ℕ) (v ty : String) (sev : Severity) (ti d : String)
    (st : MonitorState) (key : String) (h : st.activeAlerts.has key = true) :
    (emitAlert now v ty sev ti d st).activeAlerts.has key = true := by
  by_cases hk : key = getAlertKey v ty
  · subst hk
    exact emitAlert_has_self now v ty sev ti d st
  · simpa [AlertStore.has, emitAlert_get_ne now v ty sev ti d st key hk] using h

theorem clearAlert_has_ne (v ty : String) (st : MonitorState) (key : String)
    (hk : key ≠ getAlertKey v ty) (h : st.activeAlerts.has key = true) :
    (clearAlert v ty st).activeAlerts.has key = true := by
  simpa [AlertStore.has, clearAlert_get_ne v ty st key hk] using h

theorem emitAlert_mem_keys (now : ℕ) (v ty : String) (sev : Severity) (ti d : String)
    (st : MonitorState) (k : String)
    (h : k ∈ (emitAlert now v ty sev ti d st).activeAlerts.keys) :
    k ∈ st.activeAlerts.keys ∨ k = getAlertKey v ty := by
  simp only [emitAlert] at h
  split at h
  · exact mem_map_fst_setEntry _ _ _ _ h
  · exact Or.inl h

theorem clearAlert_mem_keys (v ty : String) (st : MonitorState) (k : String)
    (h : k ∈ (clearAlert v ty st).activeAlerts.keys) : k ∈ st.activeAlerts.keys := by
  simp only [clearAlert] at h
  split at h
  · exact mem_map_fst_eraseEntry _ _ _ h
  · exact h

/-! ### Checker frame lemmas -/

theorem checkSignalStrength_get_ne (now : ℕ) (v : String) (q : ℚ) (st : MonitorState)
    (key : String) (h : key ≠ getAlertKey v "signal_strength") :
    (checkSignalStrength now v q st).activeAlerts.get key = st.activeAlerts.get key := by
  simp only [checkSignalStrength]
  split
  · exact emitAlert_get_ne _ _ _ _ _ _ _ _ h
  · exact clearAlert_get_ne _ _ _ _ h

theorem checkConnectionStatus_get_ne (now : ℕ) (v s : String) (st : MonitorState)
    (key : String) (h1 : key ≠ getAlertKey v "heartbeat_timeout")
    (h2 : key ≠ getAlertKey v "signal_strength") :
    (checkConnectionStatus now v s st).activeAlerts.get key = st.activeAlerts.get key := by
  simp only [checkConnectionStatus]
  split
  · rw [emitAlert_get_ne _ _ _ _ _ _ _ _ h2]
    split
    · exact emitAlert_get_ne _ _ _ _ _ _ _ _ h1
    · split
      · exact clearAlert_get_ne _ _ _ _ h1
      · rfl
  · split
    · exact emitAlert_get_ne _ _ _ _ _ _ _ _ h1
    · split
      · exact clearAlert_get_ne _ _ _ _ h1
      · rfl

theorem checkBatteryLevel_get_ne (now : ℕ) (v : String) (q : ℚ) (st : MonitorState)
    (key : String) (h : key ≠ getAlertKey v "abnormal_status") :
    (checkBatteryLevel now v q st).activeAlerts.get key = st.activeAlerts.get key := by
  simp only [checkBatteryLevel]
  split
  · exact emitAlert_get_ne _ _ _ _ _ _ _ _ h
  · exact clearAlert_get_ne _ _ _ _ h

theorem checkGeoFenceStatus_get_ne (now : ℕ) (v s : String) (st : MonitorState)
    (key : String) (h : key ≠ getAlertKey v "geo_fence") :
    (checkGeoFenceStatus now v s st).activeAlerts.get key = st.activeAlerts.get key := by
  simp only [checkGeoFenceStatus]
  split
  · exact emitAlert_get_ne _ _ _ _ _ _ _ _ h
  · exact clearAlert_get_ne _ _ _ _ h

theorem checkVehicle_get_ne (now : ℕ) (v : String) (data : Option VehicleTelemetry)
    (st : MonitorState) (key : String)
    (h1 : key ≠ getAlertKey v "signal_strength")
    (h2 : key ≠ getAlertKey v "heartbeat_timeout")
    (h3 : key ≠ getAlertKey v "abnormal_status")
    (h4 : key ≠ getAlertKey v "geo_fence") :
    (checkVehicle now v data st).activeAlerts.get key = st.activeAlerts.get key := by
  cases data with
  | none => rfl
  | some d =>
      simp only [checkVehicle]
      rw [checkGeoFenceStatus_get_ne _ _ _ _ _ h4, checkBatteryLevel_get_ne _ _ _ _ _ h3,
        checkConnectionStatus_get_ne _ _ _ _ _ h2 h1, checkSignalStrength_get_ne _ _ _ _ _ h1]

theorem checkVehicleProximity_get_ne (now : ℕ) (v1 : String) (lat1 lon1 : ℚ)
    (v2 : String) (lat2 lon2 : ℚ) (st : MonitorState) (key : String)
    (h : key ≠ getAlertKey v1 ("proximity_" ++ v2)) :
    (checkVehicleProximity now v1 lat1 lon1 v2 lat2 lon2 st).activeAlerts.get key =
      st.activeAlerts.get key := by
  simp only [checkVehicleProximity]
  split
  · exact emitAlert_get_ne _ _ _ _ _ _ _ _ h
  · exact clearAlert_get_ne _ _ _ _ h

theorem checkPair_get_ne (now : ℕ) (v1 : String) (p1 : Option Coordinate)
    (v2 : String) (p2 : Option Coordinate) (st : MonitorState) (key : String)
    (h : key ≠ getAlertKey v1 ("proximity_" ++ v2)) :
    (checkPair now v1 p1 v2 p2 st).activeAlerts.get key = st.activeAlerts.get key := by
  cases p1 with
  | none => cases p2 <;> rfl
  | some c1 =>
      cases p2 with
      | none => rfl
      | some c2 => exact checkVehicleProximity_get_ne _ _ _ _ _ _ _ _ _ h

theorem has_true_of_get_eq (st' st : MonitorState) (key : String)
    (h : st'.activeAlerts.get key = st.activeAlerts.get key)
    (ht : st.activeAlerts.has key = true) : st'.activeAlerts.has key = true := by
  simpa [AlertStore.has, h] using ht

/-- Alert keys of the vehicle `"ERU"` start with the four characters
`ERU_`; any string that does not is a different key. -/
theorem ne_key_ERU (s : String) (ty : String)
    (h : s.data.take 4 ≠ ['E', 'R', 'U', '_']) : s ≠ getAlertKey "ERU" ty := by
  intro e
  apply h
  rw [e]
  rfl

theorem ne_key_MEA (s : String) (ty : String)
    (h : s.data.take 4 ≠ ['M', 'E', 'A', '_']) : s ≠ getAlertKey "MEA" ty := by
  intro e
  apply h
  rw [e]
  rfl

theorem ne_key_MRA (s : String) (ty : String)
    (h : s.data.take 4 ≠ ['M', 'R', 'A', '_']) : s ≠ getAlertKey "MRA" ty := by
  intro e
  apply h
  rw [e]
  rfl

/-! ### Key-creation bounds (for the reachable-state invariant) -/

theorem checkSignalStrength_mem_keys (now : ℕ) (v : String) (q : ℚ) (st : MonitorState)
    (k : String) (h : k ∈ (checkSignalStrength now v q st).activeAlerts.keys) :
    k ∈ st.activeAlerts.keys ∨ k = getAlertKey v "signal_strength" := by
  simp only [checkSignalStrength] at h
  split at h
  · exact emitAlert_mem_keys _ _ _ _ _ _ _ _ h
  · exact Or.inl (clearAlert_mem_keys _ _ _ _ h)

theorem checkBatteryLevel_mem_keys (now : ℕ) (v : String) (q : ℚ) (st : MonitorState)
    (k : String) (h : k ∈ (checkBatteryLevel now v q st).activeAlerts.keys) :
    k ∈ st.activeAlerts.keys ∨ k = getAlertKey v "abnormal_status" := by
  simp only [checkBatteryLevel] at h
  split at h
  · exact emitAlert_mem_keys _ _ _ _ _ _ _ _ h
  · exact Or.inl (clearAlert_mem_keys _ _ _ _ h)

theorem checkGeoFenceStatus_mem_keys (now : ℕ) (v s : String) (st : MonitorState)
    (k : String) (h : k ∈ (checkGeoFenceStatus now v s st).activeAlerts.keys) :
    k ∈ st.activeAlerts.keys ∨ k = getAlertKey v "geo_fence" := by
  simp only [checkGeoFenceStatus] at h
  split at h
  · exact emitAlert_mem_keys _ _ _ _ _ _ _ _ h
  · exact Or.inl (clearAlert_mem_keys _ _ _ _ h)

theorem checkConnectionStatus_mem_keys (now : ℕ) (v s : String) (st : MonitorState)
    (k : String) (h : k ∈ (checkConnectionStatus now v s st).activeAlerts.keys) :
    k ∈ st.activeAlerts.keys ∨ k = getAlertKey v "heartbeat_timeout" ∨
      k = getAlertKey v "signal_strength" := by
  simp only [checkConnectionStatus] at h
  by_cases hb : s = "Bad Connection"
  · rw [if_pos hb] at h
    rcases emitAlert_mem_keys _ _ _ _ _ _ _ _ h with h' | h'
    · split at h'
      · rcases emitAlert_mem_keys _ _ _ _ _ _ _ _ h' with h'' | h''
        · exact Or.inl h''
        · exact Or.inr (Or.inl h'')
      · split at h'
        · exact Or.inl (clearAlert_mem_keys _ _ _ _ h')
        · exact Or.inl h'
    · exact Or.inr (Or.inr h')
  · rw [if_neg hb] at h
    split at h
    · rcases emitAlert_mem_keys _ _ _ _ _ _ _ _ h with h'' | h''
      · exact Or.inl h''
      · exact Or.inr (Or.inl h'')
    · split at h
      · exact Or.inl (clearAlert_mem_keys _ _ _ _ h)
      · exact Or.inl h

theorem checkVehicle_mem_keys (now : ℕ) (v : String) (data : Option VehicleTelemetry)
    (st : MonitorState) (k : String)
    (h : k ∈ (checkVehicle now v data st).activeAlerts.keys) :
    k ∈ st.activeAlerts.keys ∨ k = getAlertKey v "signal_strength" ∨
      k = getAlertKey v "heartbeat_timeout" ∨ k = getAlertKey v "abnormal_status" ∨
      k = getAlertKey v "geo_fence" := by
  cases data with
  | none => exact Or.inl h
  | some d =>
      simp only [checkVehicle] at h
      rcases checkGeoFenceStatus_mem_keys _ _ _ _ _ h with h1 | h1
      · rcases checkBatteryLevel_mem_keys _ _ _ _ _ h1 with h2 | h2
        · rcases checkConnectionStatus_mem_keys _ _ _ _ _ h2 with h3 | h3 | h3
          · rcases checkSignalStrength_mem_keys _ _ _ _ _ h3 with h4 | h4
            · exact Or.inl h4
            · exact Or.inr (Or.inl h4)
          · exact Or.inr (Or.inr (Or.inl h3))
          · exact Or.inr (Or.inl h3)
        · exact Or.inr (Or.inr (Or.inr (Or.inl h2)))
      · exact Or.inr (Or.inr (Or.inr (Or.inr h1)))

theorem checkVehicleProximity_mem_keys (now : ℕ) (v1 : String) (lat1 lon1 : ℚ)
    (v2 : String) (lat2 lon2 : ℚ) (st : MonitorState) (k : String)
    (h : k ∈ (checkVehicleProximity now v1 lat1 lon1 v2 lat2 lon2 st).activeAlerts.keys) :
    k ∈ st.activeAlerts.keys ∨ k = getAlertKey v1 ("proximity_" ++ v2) := by
  simp only [checkVehicleProximity] at h
  split at h
  · exact emitAlert_mem_keys _ _ _ _ _ _ _ _ h
  · exact Or.inl (clearAlert_mem_keys _ _ _ _ h)

theorem checkPair_mem_keys (now : ℕ) (v1 : String) (p1 : Option Coordinate)
    (v2 : String) (p2 : Option Coordinate) (st : MonitorState) (k : String)
    (h : k ∈ (checkPair now v1 p1 v2 p2 st).activeAlerts.keys) :
    k ∈ st.activeAlerts.keys ∨ k = getAlertKey v1 ("proximity_" ++ v2) := by
  cases p1 with
  | none => cases p2 <;> exact Or.inl h
  | some c1 =>
      cases p2 with
      | none => exact Or.inl h
      | some c2 => exact checkVehicleProximity_mem_keys _ _ _ _ _ _ _ _ _ h

theorem checkVehicle_none (now : ℕ) (v : String) (st : MonitorState) :
    checkVehicle now v none st = st := rfl

theorem checkPair_none_left (now : ℕ) (v1 v2 : String) (p2 : Option Coordinate)
    (st : MonitorState) : checkPair now v1 none v2 p2 st = st := by
  cases p2 <;> rfl

theorem checkPair_none_right (now : ℕ) (v1 v2 : String) (p1 : Option Coordinate)
    (st : MonitorState) : checkPair now v1 p1 v2 none st = st := by
  cases p1 <;> rfl

theorem getAlertKey_ne_of_type_ne (v a b : String) (h : a ≠ b) :
    getAlertKey v a ≠ getAlertKey v b := by
  intro e
  apply h
  have h2 : (getAlertKey v a).data = (getAlertKey v b).data := by rw [e]
  simp only [getAlertKey, String.data_append] at h2
  exact String.ext (List.append_cancel_left h2)

theorem mem_map_fst_of_lookup (l : List (String × ℕ)) (k : String)
    (h : (lookupEntry l k).isSome = true) : k ∈ l.map Prod.fst := by
  induction l with
  | nil => simp [lookupEntry] at h
  | cons p rest ih =>
      obtain ⟨a, b⟩ := p
      by_cases ha : a = k
      · simp [ha]
      · simp only [lookupEntry, if_neg ha] at h
        simp [ih h]

theorem mem_keys_of_has (s : AlertStore) (k : String) (h : s.has k = true) :
    k ∈ s.keys :=
  mem_map_fst_of_lookup s.entries k h

/-! ### Claim theorems -/

/-- C3: for every prior state, calling `checkAlerts` with an absent (null)
snapshot leaves the dedup store and the active-alert set unchanged and
publishes no notification — the whole monitor state is returned untouched. -/
theorem checkAlerts_null_preserves_state (now : ℕ) (st : MonitorState) :
    checkAlerts now none st = st := rfl

/-- C5: clearing an alert key that is not present in the dedup store is an
idempotent no-op — no notification is published, no error is raised, and the
store is unchanged (the whole monitor state is returned untouched). -/
theorem clearAlert_absent_noop (vehicle : String) (type : String) (st : MonitorState)
    (h : st.activeAlerts.has (getAlertKey vehicle type) = false) :
    clearAlert vehicle type st = st := by
  simp [clearAlert, h]

theorem clearAlert_absent_noop_witness :
    (MonitorState.mk ⟨[]⟩ []).activeAlerts.has (getAlertKey "ERU" "signal_strength") = false ∧
    clearAlert "ERU" "signal_strength" (MonitorState.mk ⟨[]⟩ []) = MonitorState.mk ⟨[]⟩ [] :=
  ⟨by decide, clearAlert_absent_noop "ERU" "signal_strength" (MonitorState.mk ⟨[]⟩ []) (by decide)⟩

/-- C1 counterexample: with the first call at clock time 0, the stored
timestamp 0 is falsy in JavaScript, so the second call 1000 ms later —
inside the debounce window — publishes a second create-toast (and resets
the window, so a third call 3000 ms after the first publish does not
publish): the claim fails as stated at this input. -/
theorem emitAlert_debounce_fails_at_zero :
    (emitAlert 1000 "ERU" "signal_strength" Severity.warning "T" "D"
        (emitAlert 0 "ERU" "signal_strength" Severity.warning "T" "D"
          (MonitorState.mk ⟨[]⟩ []))).events
      = [Event.createToast "ERU_signal_strength" Severity.warning "T" "D",
         Event.createToast "ERU_signal_strength" Severity.warning "T" "D"] ∧
    (emitAlert 3000 "ERU" "signal_strength" Severity.warning "T" "D"
        (emitAlert 1000 "ERU" "signal_strength" Severity.warning "T" "D"
          (emitAlert 0 "ERU" "signal_strength" Severity.warning "T" "D"
            (MonitorState.mk ⟨[]⟩ [])))).events
      = [Event.createToast "ERU_signal_strength" Severity.warning "T" "D",
         Event.createToast "ERU_signal_strength" Severity.warning "T" "D"] := by
  decide

/-- C1 (amended): for a fixed alert key that is fresh in the store and a
first call at a nonzero timestamp, two calls of the emit path within the
debounce window (3000 ms) publish exactly one create-toast notification
(the second call is a complete no-op), and a third call made once the
window has elapsed since the first publish publishes a second create-toast
notification.  The nonzero-timestamp hypothesis is forced by JavaScript
truthiness: a stored timestamp of 0 is falsy, so `!lastUpdate` re-emits
immediately (see the counterexample). -/
theorem emitAlert_debounce (v ty : String) (sev : Severity) (ti d : String)
    (st : MonitorState) (t0 t1 t2 : ℕ)
    (hfresh : st.activeAlerts.get (getAlertKey v ty) = none)
    (ht0 : t0 ≠ 0)
    (h01 : t0 ≤ t1) (hin : t1 - t0 < ALERT_UPDATE_DEBOUNCE)
    (hout : ALERT_UPDATE_DEBOUNCE ≤ t2 - t0) :
    (emitAlert t0 v ty sev ti d st).events
        = st.events ++ [Event.createToast (getAlertKey v ty) sev ti d] ∧
    emitAlert t1 v ty sev ti d (emitAlert t0 v ty sev ti d st)
        = emitAlert t0 v ty sev ti d st ∧
    (emitAlert t2 v ty sev ti d
        (emitAlert t1 v ty sev ti d (emitAlert t0 v ty sev ti d st))).events
      = (emitAlert t0 v ty sev ti d st).events
          ++ [Event.createToast (getAlertKey v ty) sev ti d] := by
  have e1 : emitAlert t0 v ty sev ti d st =
      { activeAlerts := st.activeAlerts.set (getAlertKey v ty) t0,
        events := st.events ++ [Event.createToast (getAlertKey v ty) sev ti d] } := by
    simp [emitAlert, hfresh]
  have hget1 : (emitAlert t0 v ty sev ti d st).activeAlerts.get (getAlertKey v ty)
      = some t0 := by
    rw [e1]
    simp [AlertStore.get, AlertStore.set, lookupEntry_setEntry_self]
  have e2 : ∀ S : MonitorState, S.activeAlerts.get (getAlertKey v ty) = some t0 →
      emitAlert t1 v ty sev ti d S = S := by
    intro S hS
    simp [emitAlert, hS, ht0, Nat.not_le.mpr hin]
  have e3 : ∀ S : MonitorState, S.activeAlerts.get (getAlertKey v ty) = some t0 →
      (emitAlert t2 v ty sev ti d S).events
        = S.events ++ [Event.createToast (getAlertKey v ty) sev ti d] := by
    intro S hS
    simp [emitAlert, hS, hout]
  refine ⟨by rw [e1], e2 _ hget1, ?_⟩
  rw [e2 _ hget1]
  exact e3 _ hget1

theorem emitAlert_debounce_witness :
    (MonitorState.mk ⟨[]⟩ []).activeAlerts.get (getAlertKey "ERU" "signal_strength") = none ∧
    (1 : ℕ) ≠ 0 ∧ 1 ≤ 1000 ∧ 1000 - 1 < ALERT_UPDATE_DEBOUNCE ∧
    ALERT_UPDATE_DEBOUNCE ≤ 3001 - 1 ∧
    ((emitAlert 1 "ERU" "signal_strength" Severity.warning "T" "D"
        (MonitorState.mk ⟨[]⟩ [])).events
      = (MonitorState.mk ⟨[]⟩ []).events
          ++ [Event.createToast (getAlertKey "ERU" "signal_strength") Severity.warning "T" "D"] ∧
    emitAlert 1000 "ERU" "signal_strength" Severity.warning "T" "D"
        (emitAlert 1 "ERU" "signal_strength" Severity.warning "T" "D" (MonitorState.mk ⟨[]⟩ []))
      = emitAlert 1 "ERU" "signal_strength" Severity.warning "T" "D" (MonitorState.mk ⟨[]⟩ []) ∧
    (emitAlert 3001 "ERU" "signal_strength" Severity.warning "T" "D"
        (emitAlert 1000 "ERU" "signal_strength" Severity.warning "T" "D"
          (emitAlert 1 "ERU" "signal_strength" Severity.warning "T" "D"
            (MonitorState.mk ⟨[]⟩ [])))).events
      = (emitAlert 1 "ERU" "signal_strength" Severity.warning "T" "D"
            (MonitorState.mk ⟨[]⟩ [])).events
          ++ [Event.createToast (getAlertKey "ERU" "signal_strength") Severity.warning "T" "D"]) :=
  ⟨by decide, by decide, by decide, by decide, by decide,
    emitAlert_debounce "ERU" "signal_strength" Severity.warning "T" "D"
      (MonitorState.mk ⟨[]⟩ []) 1 1000 3001 (by decide) (by decide) (by decide) (by decide)
      (by decide)⟩

/-- C4: the signal-strength checker compares strictly against the −70
threshold: a signal strength of exactly −70 takes the clear branch (no
alert), while any signal strength strictly below −70 takes the emit branch
of the warning alert. -/
theorem checkSignalStrength_strict_threshold (now : ℕ) (v : String) (st : MonitorState) :
    checkSignalStrength now v (-70) st = clearAlert v "signal_strength" st ∧
    ∀ q : ℚ, q < -70 →
      checkSignalStrength now v q st
        = emitAlert now v "signal_strength" Severity.warning "Warning: Signal Integrity"
            ("Weak signal integrity/connection lost to " ++ v ++ "!") st := by
  constructor
  · simp [checkSignalStrength, ALERT_THRESHOLDS]
  · intro q hq
    simp [checkSignalStrength, ALERT_THRESHOLDS, hq]

theorem checkSignalStrength_strict_threshold_witness :
    (checkSignalStrength 7 "MEA" (-70) (MonitorState.mk ⟨[]⟩ [])
        = clearAlert "MEA" "signal_strength" (MonitorState.mk ⟨[]⟩ [])) ∧
    ((-71 : ℚ) < -70) ∧
    checkSignalStrength 7 "MEA" (-71) (MonitorState.mk ⟨[]⟩ [])
        = emitAlert 7 "MEA" "signal_strength" Severity.warning "Warning: Signal Integrity"
            ("Weak signal integrity/connection lost to " ++ "MEA" ++ "!")
            (MonitorState.mk ⟨[]⟩ []) :=
  ⟨(checkSignalStrength_strict_threshold 7 "MEA" (MonitorState.mk ⟨[]⟩ [])).1, by decide,
    (checkSignalStrength_strict_threshold 7 "MEA" (MonitorState.mk ⟨[]⟩ [])).2 (-71) (by decide)⟩

/-- C6: `clearAllAlerts` publishes exactly one dismiss notification per
active key (in store order, and nothing but dismiss notifications) and
afterwards the active-alert set is empty. -/
theorem clearAllAlerts_dismisses_all (st : MonitorState) (k : String)
    (hnd : st.activeAlerts.keys.Nodup) (hk : k ∈ getActiveAlerts st) :
    (clearAllAlerts st).events
        = st.events ++ st.activeAlerts.keys.map Event.dismissToast ∧
    (st.activeAlerts.keys.map Event.dismissToast).count (Event.dismissToast k) = 1 ∧
    (st.activeAlerts.keys.map Event.dismissToast).all Event.isDismissToast = true ∧
    getActiveAlerts (clearAllAlerts st) = [] := by
  have hinj : Function.Injective Event.dismissToast := fun a b h => by injection h
  refine ⟨rfl, ?_, ?_, rfl⟩
  · rw [List.count_map_of_injective _ _ hinj]
    exact List.count_eq_one_of_mem hnd hk
  · rw [List.all_eq_true]
    intro e he
    rcases List.mem_map.mp he with ⟨a, ha, rfl⟩
    rfl

theorem clearAllAlerts_dismisses_all_witness :
    (MonitorState.mk ⟨[("ERU_signal_strength", 5), ("MEA_geo_fence", 9)]⟩ []).activeAlerts.keys.Nodup ∧
    "MEA_geo_fence" ∈ getActiveAlerts
        (MonitorState.mk ⟨[("ERU_signal_strength", 5), ("MEA_geo_fence", 9)]⟩ []) ∧
    ((clearAllAlerts (MonitorState.mk ⟨[("ERU_signal_strength", 5), ("MEA_geo_fence", 9)]⟩ [])).events
        = (MonitorState.mk ⟨[("ERU_signal_strength", 5), ("MEA_geo_fence", 9)]⟩ []).events
            ++ (MonitorState.mk ⟨[("ERU_signal_strength", 5), ("MEA_geo_fence", 9)]⟩
                []).activeAlerts.keys.map Event.dismissToast ∧
    ((MonitorState.mk ⟨[("ERU_signal_strength", 5), ("MEA_geo_fence", 9)]⟩
        []).activeAlerts.keys.map Event.dismissToast).count
          (Event.dismissToast "MEA_geo_fence") = 1 ∧
    ((MonitorState.mk ⟨[("ERU_signal_strength", 5), ("MEA_geo_fence", 9)]⟩
        []).activeAlerts.keys.map Event.dismissToast).all Event.isDismissToast = true ∧
    getActiveAlerts (clearAllAlerts
        (MonitorState.mk ⟨[("ERU_signal_strength", 5), ("MEA_geo_fence", 9)]⟩ [])) = []) :=
  ⟨by decide, by decide,
    clearAllAlerts_dismisses_all
      (MonitorState.mk ⟨[("ERU_signal_strength", 5), ("MEA_geo_fence", 9)]⟩ [])
      "MEA_geo_fence" (by decide) (by decide)⟩

theorem checkVehicle_bad_connection (now : ℕ) (v : String) (d : VehicleTelemetry)
    (st : MonitorState) (hstatus : d.vehicle_status = "Bad Connection")
    (hsig : ALERT_THRESHOLDS.SIGNAL_STRENGTH ≤ d.signal_strength) :
    (checkVehicle now v (some d) st).activeAlerts.has
      (getAlertKey v "signal_strength") = true := by
  simp only [checkVehicle]
  refine has_true_of_get_eq _ _ _
    (checkGeoFenceStatus_get_ne _ _ _ _ _ (getAlertKey_ne_of_type_ne v _ _ (by decide))) ?_
  refine has_true_of_get_eq _ _ _
    (checkBatteryLevel_get_ne _ _ _ _ _ (getAlertKey_ne_of_type_ne v _ _ (by decide))) ?_
  rw [hstatus]
  rw [show checkConnectionStatus now v "Bad Connection"
        (checkSignalStrength now v d.signal_strength st)
      = emitAlert now v "signal_strength" Severity.warning "Warning: Signal Integrity"
          ("Weak signal integrity/connection lost to " ++ v ++ "!")
          (checkSignalStrength now v d.signal_strength st) from by
    simp [checkConnectionStatus]]
  exact emitAlert_has_self _ _ _ _ _ _ _

/-- C2: when a vehicle's record is present with status `"Bad Connection"`
and signal strength at or above −70, one `checkAlerts` pass leaves that
vehicle's `signal_strength` alert key present (active) in the store: the
signal-strength checker's clear runs first, then the connection-status
checker's emit of the same alert type runs second and wins. -/
theorem badConnection_wins_over_signal_clear (now : ℕ) (st : MonitorState)
    (snap : VehicleTelemetryData) (v : String) (d : VehicleTelemetry)
    (hv : v = "ERU" ∨ v = "MEA" ∨ v = "MRA")
    (hd : vehicleRecord snap v = some d)
    (hstatus : d.vehicle_status = "Bad Connection")
    (hsig : ALERT_THRESHOLDS.SIGNAL_STRENGTH ≤ d.signal_strength) :
    (checkAlerts now (some snap) st).activeAlerts.has
      (getAlertKey v "signal_strength") = true := by
  rcases hv with rfl | rfl | rfl
  · simp [vehicleRecord] at hd
    simp only [checkAlerts]
    refine has_true_of_get_eq _ _ _ (checkPair_get_ne _ _ _ _ _ _ _ (by decide)) ?_
    refine has_true_of_get_eq _ _ _ (checkPair_get_ne _ _ _ _ _ _ _ (by decide)) ?_
    refine has_true_of_get_eq _ _ _ (checkPair_get_ne _ _ _ _ _ _ _ (by decide)) ?_
    refine has_true_of_get_eq _ _ _
      (checkVehicle_get_ne _ _ _ _ _ (by decide) (by decide) (by decide) (by decide)) ?_
    refine has_true_of_get_eq _ _ _
      (checkVehicle_get_ne _ _ _ _ _ (by decide) (by decide) (by decide) (by decide)) ?_
    rw [hd]
    exact checkVehicle_bad_connection now "ERU" d st hstatus hsig
  · simp [vehicleRecord] at hd
    simp only [checkAlerts]
    refine has_true_of_get_eq _ _ _ (checkPair_get_ne _ _ _ _ _ _ _ (by decide)) ?_
    refine has_true_of_get_eq _ _ _ (checkPair_get_ne _ _ _ _ _ _ _ (by decide)) ?_
    refine has_true_of_get_eq _ _ _ (checkPair_get_ne _ _ _ _ _ _ _ (by decide)) ?_
    refine has_true_of_get_eq _ _ _
      (checkVehicle_get_ne _ _ _ _ _ (by decide) (by decide) (by decide) (by decide)) ?_
    rw [hd]
    exact checkVehicle_bad_connection now "MEA" d _ hstatus hsig
  · simp [vehicleRecord] at hd
    simp only [checkAlerts]
    refine has_true_of_get_eq _ _ _ (checkPair_get_ne _ _ _ _ _ _ _ (by decide)) ?_
    refine has_true_of_get_eq _ _ _ (checkPair_get_ne _ _ _ _ _ _ _ (by decide)) ?_
    refine has_true_of_get_eq _ _ _ (checkPair_get_ne _ _ _ _ _ _ _ (by decide)) ?_
    rw [hd]
    exact checkVehicle_bad_connection now "MRA" d _ hstatus hsig

theorem badConnection_wins_over_signal_clear_witness :
    vehicleRecord
        (VehicleTelemetryData.mk
          (some (VehicleTelemetry.mk (-50) "Bad Connection" 50 none)) none none) "ERU"
      = some (VehicleTelemetry.mk (-50) "Bad Connection" 50 none) ∧
    (VehicleTelemetry.mk (-50) "Bad Connection" 50 none).vehicle_status = "Bad Connection" ∧
    ALERT_THRESHOLDS.SIGNAL_STRENGTH
      ≤ (VehicleTelemetry.mk (-50) "Bad Connection" 50 none).signal_strength ∧
    (checkAlerts 0
        (some (VehicleTelemetryData.mk
          (some (VehicleTelemetry.mk (-50) "Bad Connection" 50 none)) none none))
        (MonitorState.mk ⟨[]⟩ [])).activeAlerts.has
      (getAlertKey "ERU" "signal_strength") = true :=
  ⟨rfl, rfl, by decide,
    badConnection_wins_over_signal_clear 0 (MonitorState.mk ⟨[]⟩ [])
      (VehicleTelemetryData.mk
        (some (VehicleTelemetry.mk (-50) "Bad Connection" 50 none)) none none)
      "ERU" (VehicleTelemetry.mk (-50) "Bad Connection" 50 none)
      (Or.inl rfl) rfl rfl (by decide)⟩

/-- C10: when the snapshot is present but one vehicle's record is absent, a
`checkAlerts` pass leaves every alert key of that vehicle unchanged in the
dedup store (the absent record skips that vehicle's checkers and its
proximity pairs without implicitly clearing its alerts), while the checkers
of the other vehicles still run on the same pass. -/
theorem absent_record_preserves_vehicle_keys (now : ℕ) (st : MonitorState)
    (snap : VehicleTelemetryData) (v : String) (ty : String)
    (hv : v = "ERU" ∨ v = "MEA" ∨ v = "MRA")
    (habs : vehicleRecord snap v = none) :
    (checkAlerts now (some snap) st).activeAlerts.get (getAlertKey v ty)
      = st.activeAlerts.get (getAlertKey v ty) := by
  rcases hv with rfl | rfl | rfl
  · simp [vehicleRecord] at habs
    simp only [checkAlerts, habs, Option.none_bind, checkPair_none_left,
      checkPair_none_right, checkVehicle_none]
    refine Eq.trans (checkPair_get_ne _ _ _ _ _ _ _
      (Ne.symm (ne_key_ERU _ ty (by decide)))) ?_
    refine Eq.trans (checkVehicle_get_ne _ _ _ _ _
      (Ne.symm (ne_key_ERU _ ty (by decide))) (Ne.symm (ne_key_ERU _ ty (by decide)))
      (Ne.symm (ne_key_ERU _ ty (by decide))) (Ne.symm (ne_key_ERU _ ty (by decide)))) ?_
    exact checkVehicle_get_ne _ _ _ _ _
      (Ne.symm (ne_key_ERU _ ty (by decide))) (Ne.symm (ne_key_ERU _ ty (by decide)))
      (Ne.symm (ne_key_ERU _ ty (by decide))) (Ne.symm (ne_key_ERU _ ty (by decide)))
  · simp [vehicleRecord] at habs
    simp only [checkAlerts, habs, Option.none_bind, checkPair_none_left,
      checkPair_none_right, checkVehicle_none]
    refine Eq.trans (checkPair_get_ne _ _ _ _ _ _ _
      (Ne.symm (ne_key_MEA _ ty (by decide)))) ?_
    refine Eq.trans (checkVehicle_get_ne _ _ _ _ _
      (Ne.symm (ne_key_MEA _ ty (by decide))) (Ne.symm (ne_key_MEA _ ty (by decide)))
      (Ne.symm (ne_key_MEA _ ty (by decide))) (Ne.symm (ne_key_MEA _ ty (by decide)))) ?_
    exact checkVehicle_get_ne _ _ _ _ _
      (Ne.symm (ne_key_MEA _ ty (by decide))) (Ne.symm (ne_key_MEA _ ty (by decide)))
      (Ne.symm (ne_key_MEA _ ty (by decide))) (Ne.symm (ne_key_MEA _ ty (by decide)))
  · simp [vehicleRecord] at habs
    simp only [checkAlerts, habs, Option.none_bind, checkPair_none_left,
      checkPair_none_right, checkVehicle_none]
    refine Eq.trans (checkPair_get_ne _ _ _ _ _ _ _
      (Ne.symm (ne_key_MRA _ ty (by decide)))) ?_
    refine Eq.trans (checkVehicle_get_ne _ _ _ _ _
      (Ne.symm (ne_key_MRA _ ty (by decide))) (Ne.symm (ne_key_MRA _ ty (by decide)))
      (Ne.symm (ne_key_MRA _ ty (by decide))) (Ne.symm (ne_key_MRA _ ty (by decide)))) ?_
    exact checkVehicle_get_ne _ _ _ _ _
      (Ne.symm (ne_key_MRA _ ty (by decide))) (Ne.symm (ne_key_MRA _ ty (by decide)))
      (Ne.symm (ne_key_MRA _ ty (by decide))) (Ne.symm (ne_key_MRA _ ty (by decide)))

theorem absent_record_preserves_vehicle_keys_witness :
    vehicleRecord
        (VehicleTelemetryData.mk none
          (some (VehicleTelemetry.mk (-80) "Disconnected" 10 none)) none) "ERU" = none ∧
    (checkAlerts 5
        (some (VehicleTelemetryData.mk none
          (some (VehicleTelemetry.mk (-80) "Disconnected" 10 none)) none))
        (MonitorState.mk ⟨[("ERU_signal_strength", 1)]⟩ [])).activeAlerts.get
      (getAlertKey "ERU" "signal_strength")
      = (MonitorState.mk ⟨[("ERU_signal_strength", 1)]⟩ []).activeAlerts.get
          (getAlertKey "ERU" "signal_strength") :=
  ⟨rfl,
    absent_record_preserves_vehicle_keys 5
      (MonitorState.mk ⟨[("ERU_signal_strength", 1)]⟩ [])
      (VehicleTelemetryData.mk none
        (some (VehicleTelemetry.mk (-80) "Disconnected" 10 none)) none)
      "ERU" "signal_strength" (Or.inl rfl) rfl⟩

theorem checkAlerts_mem_keys (now : ℕ) (snap : Option VehicleTelemetryData)
    (st : MonitorState) (k : String)
    (h : k ∈ (checkAlerts now snap st).activeAlerts.keys) :
    k ∈ st.activeAlerts.keys ∨ k ∈ allowedKeys := by
  cases snap with
  | none => exact Or.inl h
  | some ts =>
      simp only [checkAlerts] at h
      rcases checkPair_mem_keys _ _ _ _ _ _ _ h with h | rfl
      · rcases checkPair_mem_keys _ _ _ _ _ _ _ h with h | rfl
        · rcases checkPair_mem_keys _ _ _ _ _ _ _ h with h | rfl
          · rcases checkVehicle_mem_keys _ _ _ _ _ h with h | rfl | rfl | rfl | rfl
            · rcases checkVehicle_mem_keys _ _ _ _ _ h with h | rfl | rfl | rfl | rfl
              · rcases checkVehicle_mem_keys _ _ _ _ _ h with h | rfl | rfl | rfl | rfl
                · exact Or.inl h
                all_goals exact Or.inr (by decide)
              all_goals exact Or.inr (by decide)
            all_goals exact Or.inr (by decide)
          · exact Or.inr (by decide)
        · exact Or.inr (by decide)
      · exact Or.inr (by decide)

theorem reachable_mem_keys (st : MonitorState) (h : Reachable st) :
    ∀ k ∈ st.activeAlerts.keys, k ∈ allowedKeys := by
  induction h with
  | init => intro k hk; simp [AlertStore.keys] at hk
  | step now snap st' hr ih =>
      intro k hk
      rcases checkAlerts_mem_keys _ _ _ _ hk with h' | h'
      · exact ih k h'
      · exact h'
  | clearAll st' hr ih =>
      intro k hk
      simp [clearAllAlerts, AlertStore.keys] at hk

/-- C9: proximity is evaluated in one fixed direction per vehicle pair: in
every reachable state of the monitoring module, every stored key belongs to
the whitelist of twelve per-vehicle keys plus the three forward proximity
keys (`ERU_proximity_MEA`, `ERU_proximity_MRA`, `MEA_proximity_MRA`), and in
particular none of the reverse-direction proximity keys is ever present. -/
theorem proximity_keys_directional (st : MonitorState) (h : Reachable st) :
    keysAllowed st = true ∧
    st.activeAlerts.has "MEA_proximity_ERU" = false ∧
    st.activeAlerts.has "MRA_proximity_ERU" = false ∧
    st.activeAlerts.has "MRA_proximity_MEA" = false := by
  have hmem := reachable_mem_keys st h
  have hof : ∀ k : String, k ∉ allowedKeys → st.activeAlerts.has k = false := by
    intro k hk
    cases hh : st.activeAlerts.has k with
    | false => rfl
    | true => exact absurd (hmem k (mem_keys_of_has _ _ hh)) hk
  refine ⟨?_, hof _ (by decide), hof _ (by decide), hof _ (by decide)⟩
  rw [keysAllowed, List.all_eq_true]
  intro k hk
  exact decide_eq_true (hmem k hk)

theorem proximity_keys_directional_witness :
    keysAllowed (clearAllAlerts (MonitorState.mk ⟨[]⟩ [])) = true ∧
    (clearAllAlerts (MonitorState.mk ⟨[]⟩ [])).activeAlerts.has "MEA_proximity_ERU" = false ∧
    (clearAllAlerts (MonitorState.mk ⟨[]⟩ [])).activeAlerts.has "MRA_proximity_ERU" = false ∧
    (clearAllAlerts (MonitorState.mk ⟨[]⟩ [])).activeAlerts.has "MRA_proximity_MEA" = false :=
  proximity_keys_directional (clearAllAlerts (MonitorState.mk ⟨[]⟩ []))
    (Reachable.clearAll (MonitorState.mk ⟨[]⟩ []) Reachable.init)

/-! ### Distance facts -/

/-- C8: the haversine distance function is symmetric in its two coordinate
pairs — exactly, not merely up to floating-point tolerance, in the
real-number model. -/
theorem calculateDistance_symm (lat1 lon1 lat2 lon2 : ℝ) :
    calculateDistance lat1 lon1 lat2 lon2 = calculateDistance lat2 lon2 lat1 lon1 := by
  have h1 : (lat1 - lat2) * Real.pi / 180 / 2 = -((lat2 - lat1) * Real.pi / 180 / 2) := by
    ring
  have h2 : (lon1 - lon2) * Real.pi / 180 / 2 = -((lon2 - lon1) * Real.pi / 180 / 2) := by
    ring
  simp only [calculateDistance, h1, h2, Real.sin_neg]
  ring_nf

theorem atan2_sin_cos (x : ℝ) (h0 : 0 ≤ x) (h1 : x < Real.pi / 2) :
    atan2 (Real.sqrt (Real.sin x * Real.sin x))
      (Real.sqrt (1 - Real.sin x * Real.sin x)) = x := by
  have hsx : 0 ≤ Real.sin x :=
    Real.sin_nonneg_of_nonneg_of_le_pi h0 (by linarith [Real.pi_pos])
  have hcx : 0 < Real.cos x :=
    Real.cos_pos_of_mem_Ioo ⟨by linarith [Real.pi_pos], h1⟩
  have h1s : (1 : ℝ) - Real.sin x * Real.sin x = Real.cos x * Real.cos x := by
    have h := Real.sin_sq_add_cos_sq x
    nlinarith [h]
  rw [Real.sqrt_mul_self hsx, h1s, Real.sqrt_mul_self (le_of_lt hcx)]
  rw [atan2, if_pos hcx, ← Real.tan_eq_sin_div_cos,
    Real.arctan_tan (by linarith [Real.pi_pos]) h1]

/-- Closed form of the haversine distance along the equator (both latitudes
zero, eastward longitude difference below 180 degrees). -/
theorem calculateDistance_equator (L : ℝ) (h0 : 0 ≤ L) (h1 : L < 180) :
    calculateDistance 0 0 0 L = 3959 * (2 * (L * Real.pi / 180 / 2)) * 5280 := by
  have hx0 : 0 ≤ L * Real.pi / 180 / 2 := by positivity
  have hx1 : L * Real.pi / 180 / 2 < Real.pi / 2 := by nlinarith [Real.pi_pos]
  have e0 : ((0 : ℝ) - 0) * Real.pi / 180 / 2 = 0 := by ring
  have e1 : (0 : ℝ) * Real.pi / 180 = 0 := by ring
  have e2 : (L - 0) * Real.pi / 180 / 2 = L * Real.pi / 180 / 2 := by ring
  have ea : Real.sin 0 * Real.sin 0 +
      Real.cos 0 * Real.cos 0 * Real.sin (L * Real.pi / 180 / 2) *
        Real.sin (L * Real.pi / 180 / 2)
      = Real.sin (L * Real.pi / 180 / 2) * Real.sin (L * Real.pi / 180 / 2) := by
    simp
  simp only [calculateDistance, e0, e1, e2, ea]
  rw [atan2_sin_cos _ hx0 hx1]

/-- The ERU/MEA positions of the end-to-end scenario are about 365 ft
apart, which is not below the 100 ft proximity threshold. -/
theorem scenario_distance_not_close :
    ¬ (calculateDistance ((0 : ℚ) : ℝ) ((0 : ℚ) : ℝ) ((0 : ℚ) : ℝ) (((0.001 : ℚ)) : ℝ)
        < ((ALERT_THRESHOLDS.PROXIMITY : ℚ) : ℝ)) := by
  have hc0 : ((0 : ℚ) : ℝ) = (0 : ℝ) := by norm_num
  have hc1 : (((0.001 : ℚ)) : ℝ) = (0.001 : ℝ) := by norm_num
  have hc100 : ((ALERT_THRESHOLDS.PROXIMITY : ℚ) : ℝ) = (100 : ℝ) := by
    norm_num [ALERT_THRESHOLDS]
  rw [hc0, hc1, hc100, calculateDistance_equator 0.001 (by norm_num) (by norm_num)]
  push_neg
  nlinarith [Real.pi_gt_three]

/-- C7: starting from an empty store, one `checkAlerts` pass on the
snapshot (ERU: battery 15, Connected, signal −50, position (0,0); MEA:
battery 90, Connected, signal −50, position (0, 0.001); MRA absent)
publishes exactly one notification — an error-severity create for ERU's
`abnormal_status` alert — and in particular no proximity alert, because the
ERU/MEA distance (≈365 ft) is not below the 100 ft threshold. -/
theorem checkAlerts_endToEnd_scenario (now : ℕ) :
    checkAlerts now (some (VehicleTelemetryData.mk
        (some (VehicleTelemetry.mk (-50) "Connected" 15 (some (Coordinate.mk 0 0))))
        (some (VehicleTelemetry.mk (-50) "Connected" 90 (some (Coordinate.mk 0 0.001))))
        none))
      (MonitorState.mk ⟨[]⟩ [])
    = MonitorState.mk ⟨[("ERU_abnormal_status", now)]⟩
        [Event.createToast "ERU_abnormal_status" Severity.error "Error: Abnormal Status"
          "Abnormal ERU status (low battery: 15%)!"] := by
  have k1 : getAlertKey "ERU" "signal_strength" = "ERU_signal_strength" := rfl
  have k2 : getAlertKey "ERU" "heartbeat_timeout" = "ERU_heartbeat_timeout" := rfl
  have k3 : getAlertKey "ERU" "abnormal_status" = "ERU_abnormal_status" := rfl
  have k4 : getAlertKey "ERU" "geo_fence" = "ERU_geo_fence" := rfl
  have k5 : getAlertKey "MEA" "signal_strength" = "MEA_signal_strength" := rfl
  have k6 : getAlertKey "MEA" "heartbeat_timeout" = "MEA_heartbeat_timeout" := rfl
  have k7 : getAlertKey "MEA" "abnormal_status" = "MEA_abnormal_status" := rfl
  have k8 : getAlertKey "MEA" "geo_fence" = "MEA_geo_fence" := rfl
  have k9 : getAlertKey "ERU" ("proximity_" ++ "MEA") = "ERU_proximity_MEA" := rfl
  have hdesc : ("Abnormal " ++ "ERU" ++ " status (low battery: "
      ++ toString (15 : ℚ) ++ "%)!") = "Abnormal ERU status (low battery: 15%)!" := rfl
  have c1 : ("Connected" = "Disconnected") = False := by decide
  have c2 : ("Connected" = "Bad Connection") = False := by decide
  have c3 : ("Connected" = "Approaching restricted area") = False := by decide
  have c4 : ("ERU_abnormal_status" = "ERU_geo_fence") = False := by decide
  have c5 : ("ERU_abnormal_status" = "MEA_signal_strength") = False := by decide
  have c6 : ("ERU_abnormal_status" = "MEA_heartbeat_timeout") = False := by decide
  have c7 : ("ERU_abnormal_status" = "MEA_abnormal_status") = False := by decide
  have c8 : ("ERU_abnormal_status" = "MEA_geo_fence") = False := by decide
  have c9 : ("ERU_abnormal_status" = "ERU_proximity_MEA") = False := by decide
  have s1 : checkSignalStrength now "ERU" (-50) (MonitorState.mk ⟨[]⟩ [])
      = MonitorState.mk ⟨[]⟩ [] := by
    norm_num [checkSignalStrength, clearAlert, k1, ALERT_THRESHOLDS,
      AlertStore.has, AlertStore.get, lookupEntry]
  have s2 : checkConnectionStatus now "ERU" "Connected" (MonitorState.mk ⟨[]⟩ [])
      = MonitorState.mk ⟨[]⟩ [] := by
    norm_num [checkConnectionStatus, clearAlert, k2, c1, c2, AlertStore.has,
      AlertStore.get, lookupEntry]
  have s3 : checkBatteryLevel now "ERU" 15 (MonitorState.mk ⟨[]⟩ [])
      = MonitorState.mk ⟨[("ERU_abnormal_status", now)]⟩
          [Event.createToast "ERU_abnormal_status" Severity.error "Error: Abnormal Status"
            "Abnormal ERU status (low battery: 15%)!"] := by
    norm_num [checkBatteryLevel, emitAlert, k3, hdesc, ALERT_THRESHOLDS,
      AlertStore.get, AlertStore.set, lookupEntry, setEntry]
  have s4 : checkGeoFenceStatus now "ERU" "Connected"
      (MonitorState.mk ⟨[("ERU_abnormal_status", now)]⟩
        [Event.createToast "ERU_abnormal_status" Severity.error "Error: Abnormal Status"
          "Abnormal ERU status (low battery: 15%)!"])
      = MonitorState.mk ⟨[("ERU_abnormal_status", now)]⟩
          [Event.createToast "ERU_abnormal_status" Severity.error "Error: Abnormal Status"
            "Abnormal ERU status (low battery: 15%)!"] := by
    norm_num [checkGeoFenceStatus, clearAlert, k4, c3, c4, AlertStore.has,
      AlertStore.get, lookupEntry]
  have hERU : checkVehicle now "ERU"
      (some (VehicleTelemetry.mk (-50) "Connected" 15 (some (Coordinate.mk 0 0))))
      (MonitorState.mk ⟨[]⟩ [])
    = MonitorState.mk ⟨[("ERU_abnormal_status", now)]⟩
        [Event.createToast "ERU_abnormal_status" Severity.error "Error: Abnormal Status"
          "Abnormal ERU status (low battery: 15%)!"] := by
    simp only [checkVehicle]
    rw [s1, s2, s3, s4]
  have t1 : checkSignalStrength now "MEA" (-50)
      (MonitorState.mk ⟨[("ERU_abnormal_status", now)]⟩
        [Event.createToast "ERU_abnormal_status" Severity.error "Error: Abnormal Status"
          "Abnormal ERU status (low battery: 15%)!"])
      = MonitorState.mk ⟨[("ERU_abnormal_status", now)]⟩
          [Event.createToast "ERU_abnormal_status" Severity.error "Error: Abnormal Status"
            "Abnormal ERU status (low battery: 15%)!"] := by
    norm_num [checkSignalStrength, clearAlert, k5, c5, ALERT_THRESHOLDS,
      AlertStore.has, AlertStore.get, lookupEntry]
  have t2 : checkConnectionStatus now "MEA" "Connected"
      (MonitorState.mk ⟨[("ERU_abnormal_status", now)]⟩
        [Event.createToast "ERU_abnormal_status" Severity.error "Error: Abnormal Status"
          "Abnormal ERU status (low battery: 15%)!"])
      = MonitorState.mk ⟨[("ERU_abnormal_status", now)]⟩
          [Event.createToast "ERU_abnormal_status" Severity.error "Error: Abnormal Status"
            "Abnormal ERU status (low battery: 15%)!"] := by
    norm_num [checkConnectionStatus, clearAlert, k6, c1, c2, c6, AlertStore.has,
      AlertStore.get, lookupEntry]
  have t3 : checkBatteryLevel now "MEA" 90
      (MonitorState.mk ⟨[("ERU_abnormal_status", now)]⟩
        [Event.createToast "ERU_abnormal_status" Severity.error "Error: Abnormal Status"
          "Abnormal ERU status (low battery: 15%)!"])
      = MonitorState.mk ⟨[("ERU_abnormal_status", now)]⟩
          [Event.createToast "ERU_abnormal_status" Severity.error "Error: Abnormal Status"
            "Abnormal ERU status (low battery: 15%)!"] := by
    norm_num [checkBatteryLevel, clearAlert, k7, c7, ALERT_THRESHOLDS,
      AlertStore.has, AlertStore.get, lookupEntry]
  have t4 : checkGeoFenceStatus now "MEA" "Connected"
      (MonitorState.mk ⟨[("ERU_abnormal_status", now)]⟩
        [Event.createToast "ERU_abnormal_status" Severity.error "Error: Abnormal Status"
          "Abnormal ERU status (low battery: 15%)!"])
      = MonitorState.mk ⟨[("ERU_abnormal_status", now)]⟩
          [Event.createToast "ERU_abnormal_status" Severity.error "Error: Abnormal Status"
            "Abnormal ERU status (low battery: 15%)!"] := by
    norm_num [checkGeoFenceStatus, clearAlert, k8, c3, c8, AlertStore.has,
      AlertStore.get, lookupEntry]
  have hMEA : checkVehicle now "MEA"
      (some (VehicleTelemetry.mk (-50) "Connected" 90 (some (Coordinate.mk 0 0.001))))
      (MonitorState.mk ⟨[("ERU_abnormal_status", now)]⟩
        [Event.createToast "ERU_abnormal_status" Severity.error "Error: Abnormal Status"
          "Abnormal ERU status (low battery: 15%)!"])
    = MonitorState.mk ⟨[("ERU_abnormal_status", now)]⟩
        [Event.createToast "ERU_abnormal_status" Severity.error "Error: Abnormal Status"
          "Abnormal ERU status (low battery: 15%)!"] := by
    simp only [checkVehicle]
    rw [t1, t2, t3, t4]
  simp only [checkAlerts, Option.some_bind, Option.none_bind, checkVehicle_none]
  rw [hERU, hMEA]
  rw [checkPair_none_right, checkPair_none_right]
  simp only [checkPair, checkVehicleProximity]
  rw [if_neg scenario_distance_not_close]
  norm_num [clearAlert, k9, c9, AlertStore.has, AlertStore.get, lookupEntry]
